import Mathlib

/-!
Verification of the Tomorrow weather-alert service.

The definitions below are a shallow embedding of the TypeScript sources:

* src/server/src/business-logic/use-cases/evaluate-alert.use-case.ts
  (function evaluateAlertCondition)
* src/server/src/business-logic/use-cases/evaluate-all-alerts.use-case.ts
  (EvaluateAllAlertsUseCase, the scheduler sweep)
* src/server/src/business-logic/use-cases/event-driven-alert-evaluation.use-case.ts
  (EventDrivenAlertEvaluationUseCase)
* src/server/src/services/scheduler.service.ts (AlertEvaluationScheduler)
* src/server/src/shared/utils/circuit-breaker.ts (CircuitBreaker)
* src/server/src/infrastructure/external-apis/tomorrow-weather.provider.ts
  (TomorrowWeatherProvider.getRealtime)
* src/server/src/infrastructure/external-apis/event-driven-weather.provider.ts
  (EventDrivenWeatherProvider)

JavaScript numbers are modelled as rationals, wall-clock times in
milliseconds as integers, and nullable fields as Option.  Functions that can
throw are modelled with explicit outcome types.
-/

namespace Tomorrow

/-! ### Core data model -/

/-- Comparison operators of an alert condition (string union in the source). -/
inductive Operator
  | GT | GTE | LT | LTE | EQ | NE
  deriving Repr, DecidableEq

/-- Alert parameters as the typed union in evaluate-alert.use-case.ts.
At runtime the parameter travels as a string; `key` below gives the string. -/
inductive Parameter
  | TEMPERATURE | WIND_SPEED | PRECIPITATION
  deriving Repr, DecidableEq

/-- Runtime string carried by each member of the Parameter union. -/
def Parameter.key : Parameter → String
  | .TEMPERATURE => "TEMPERATURE"
  | .WIND_SPEED => "WIND_SPEED"
  | .PRECIPITATION => "PRECIPITATION"

/-- The values record passed to evaluateAlertCondition
(temperatureC, windSpeedMps, precipitationMmHr, each number or null). -/
structure WeatherValues where
  temperatureC : Option ℚ
  windSpeedMps : Option ℚ
  precipitationMmHr : Option ℚ
  deriving Repr, DecidableEq

/-- Embeds the object lookup valueMap[parameter] from evaluateAlertCondition.
The source builds the object with the keys TEMPERATURE, WIND_SPEED and
PRECIPITATION; a lookup with any other runtime string yields undefined,
which (like null) is modelled as none. -/
def valueMapLookup (parameter : String) (values : WeatherValues) : Option ℚ :=
  if parameter = "TEMPERATURE" then values.temperatureC
  else if parameter = "WIND_SPEED" then values.windSpeedMps
  else if parameter = "PRECIPITATION" then values.precipitationMmHr
  else none

/-- The switch (operator) block of evaluateAlertCondition: standard strict
JavaScript numeric comparisons of currentValue against threshold. -/
def applyOperator (operator : Operator) (currentValue threshold : ℚ) : Bool :=
  match operator with
  | .GT => decide (currentValue > threshold)
  | .GTE => decide (currentValue ≥ threshold)
  | .LT => decide (currentValue < threshold)
  | .LTE => decide (currentValue ≤ threshold)
  | .EQ => decide (currentValue = threshold)
  | .NE => decide (currentValue ≠ threshold)

/-- Embedding of evaluateAlertCondition from evaluate-alert.use-case.ts.
Returns the pair (currentValue, triggered).  The source checks
currentValue == null (capturing both null and undefined) before the
operator switch. -/
def evaluateAlertCondition (parameter : String) (operator : Operator)
    (threshold : ℚ) (values : WeatherValues) : Option ℚ × Bool :=
  match valueMapLookup parameter values with
  | none => (none, false)
  | some currentValue => (some currentValue, applyOperator operator currentValue threshold)

/-- Specification-side field selection: the observation field named by the
parameter (spec section 4.4). -/
def selectField : Parameter → WeatherValues → Option ℚ
  | .TEMPERATURE, v => v.temperatureC
  | .WIND_SPEED, v => v.windSpeedMps
  | .PRECIPITATION, v => v.precipitationMmHr

/-- Specification-side standard numeric comparison for each operator
(spec section 4.4: apply the operator with standard numeric comparison
semantics; GT is strict). -/
def specComparison (operator : Operator) (value threshold : ℚ) : Bool :=
  match operator with
  | .GT => decide (threshold < value)
  | .GTE => decide (threshold ≤ value)
  | .LT => decide (value < threshold)
  | .LTE => decide (value ≤ threshold)
  | .EQ => decide (value = threshold)
  | .NE => decide (¬ value = threshold)

end Tomorrow

namespace Tomorrow

/-- C6: for every parameter, operator, threshold and observation values,
evaluateAlertCondition returns as currentValue exactly the observation field
selected by the parameter; when that field is null the result is
(null, false); otherwise triggered is the standard numeric comparison of the
value against the threshold, strict for GT.  The function is a pure Lean
function, so equal inputs yield equal outputs by definition. -/
theorem c6_condition_evaluator (p : Parameter) (op : Operator) (th : ℚ)
    (v : WeatherValues) :
    (evaluateAlertCondition p.key op th v).1 = selectField p v ∧
    (evaluateAlertCondition p.key op th v).2 =
      (match selectField p v with
       | none => false
       | some x => specComparison op x th) := by
  have hsel : valueMapLookup p.key v = selectField p v := by
    cases p <;> simp [valueMapLookup, Parameter.key, selectField]
  have hcmp : ∀ x : ℚ, applyOperator op x th = specComparison op x th := by
    intro x
    cases op <;>
      simp only [applyOperator, specComparison, gt_iff_lt, ge_iff_le, ne_eq]
  unfold evaluateAlertCondition
  rw [hsel]
  cases selectField p v with
  | none => exact ⟨rfl, rfl⟩
  | some x => exact ⟨rfl, hcmp x⟩

end Tomorrow

namespace Tomorrow

/-! ### Alert records and the event-driven evaluation engine -/

/-- Alert record as stored by the repository (ports/alert-repository.ts,
type AlertRecord).  The parameter travels as a runtime string (the port
annotates it with the union TEMPERATURE | WIND_SPEED | PRECIPITATION).
The createdAt and updatedAt audit columns are never read by the components
under verification and are omitted. -/
structure AlertRecord where
  id : String
  name : Option String
  description : Option String
  cityName : Option String
  latitude : Option ℚ
  longitude : Option ℚ
  parameter : String
  operator : Operator
  threshold : ℚ
  units : Option String
  contactEmail : Option String
  contactPhone : Option String
  lastValue : Option ℚ
  lastState : Option Bool
  lastEvaluatedAt : Option Int
  deriving Repr, DecidableEq

/-- Weather event published on the weather-updates topic
(kafka.service.ts, interface WeatherEventData).  The timestamp string is
never read by the evaluation path and is omitted. -/
structure WeatherEventData where
  latitude : ℚ
  longitude : ℚ
  temperatureC : Option ℚ
  windSpeedMps : Option ℚ
  precipitationMmHr : Option ℚ
  source : String
  deriving Repr, DecidableEq

/-- Alert evaluation event (kafka.service.ts, interface AlertEventData).
The threshold field is filled by the event path from alert.value, a field
that does not exist on repository records, hence Option.  The timestamp and
evaluationDurationMs fields are not read downstream and are omitted. -/
structure AlertEventData where
  alertId : String
  alertName : Option String
  triggered : Bool
  previousState : Option Bool
  currentValue : ℚ
  threshold : Option ℚ
  parameter : String
  latitude : ℚ
  longitude : ℚ
  cityName : Option String
  deriving Repr, DecidableEq

/-- One call of IAlertRepository.updateAlertAfterEvaluation, recorded as
data: which alert was written and with which currentValue and triggered. -/
structure EvaluationWrite where
  alertId : String
  currentValue : Option ℚ
  triggered : Bool
  deriving Repr, DecidableEq

/-- Effect of PrismaAlertRepository.updateAlertAfterEvaluation on the stored
record: lastValue := currentValue, lastState := triggered,
lastEvaluatedAt := new Date() (the write time). -/
def updateAlertAfterEvaluation (alert : AlertRecord) (currentValue : Option ℚ)
    (triggered : Bool) (now : Int) : AlertRecord :=
  { alert with
      lastValue := currentValue
      lastState := some triggered
      lastEvaluatedAt := some now }

/-- EventDrivenAlertEvaluationUseCase.findAlertsForLocation: keep the alerts
whose per-axis absolute coordinate difference from the observation is at
most radiusDegrees.  The source reads alert.latitude || 0, so a null
coordinate is coerced to 0 before the comparison. -/
def findAlertsForLocation (alerts : List AlertRecord)
    (latitude longitude radiusDegrees : ℚ) : List AlertRecord :=
  alerts.filter fun alert =>
    let alertLat := alert.latitude.getD 0
    let alertLon := alert.longitude.getD 0
    decide (|alertLat - latitude| ≤ radiusDegrees) &&
      decide (|alertLon - longitude| ≤ radiusDegrees)

/-- EventDrivenAlertEvaluationUseCase.extractWeatherValue: a switch over the
lowercase parameter names; any other string falls to the default case and
yields null. -/
def extractWeatherValue (weatherData : WeatherEventData) (parameter : String) :
    Option ℚ :=
  if parameter = "temperature" then weatherData.temperatureC
  else if parameter = "windSpeed" then weatherData.windSpeedMps
  else if parameter = "precipitation" then weatherData.precipitationMmHr
  else none

/-- JavaScript String.prototype.toUpperCase restricted to ASCII, as applied
to the parameter string in evaluateAlertWithEvent. -/
def jsToUpperCase (s : String) : String := String.mk (s.data.map Char.toUpper)

/-- JavaScript comparison of a number against a possibly-undefined
threshold: every relational comparison and strict equality against
undefined is false, while strict inequality (the NE case) is true. -/
def jsCompare (operator : Operator) (currentValue : ℚ) (threshold : Option ℚ) :
    Bool :=
  match threshold with
  | some t => applyOperator operator currentValue t
  | none =>
    match operator with
    | .NE => true
    | _ => false

/-- The runtime behaviour of evaluateAlertCondition when the caller passes a
possibly-undefined threshold through the untyped cast in
evaluateAlertWithEvent.  With threshold = some t this coincides with
evaluateAlertCondition. -/
def evaluateAlertConditionJs (parameter : String) (operator : Operator)
    (threshold : Option ℚ) (values : WeatherValues) : Option ℚ × Bool :=
  match valueMapLookup parameter values with
  | none => (none, false)
  | some currentValue =>
    (some currentValue, jsCompare operator currentValue threshold)

/-- EventDrivenAlertEvaluationUseCase.evaluateAlertWithEvent.  Returns none
when the early return fires (no value for the parameter in the weather
event: no repository write, no published event); otherwise returns the
repository write and the published alert evaluation event.  The threshold
handed to the condition evaluator is alert.value, which is not a field of
repository alert records and is therefore undefined (none). -/
def evaluateAlertWithEvent (alert : AlertRecord) (weatherData : WeatherEventData) :
    Option (EvaluationWrite × AlertEventData) :=
  match extractWeatherValue weatherData alert.parameter with
  | none => none
  | some currentValue =>
    let previousState := alert.lastState.getD false
    let evaluation := evaluateAlertConditionJs (jsToUpperCase alert.parameter)
      alert.operator none
      { temperatureC := if alert.parameter = "temperature" then some currentValue else none
        windSpeedMps := if alert.parameter = "windSpeed" then some currentValue else none
        precipitationMmHr := if alert.parameter = "precipitation" then some currentValue else none }
    let triggered := evaluation.2
    some
      ({ alertId := alert.id, currentValue := some currentValue, triggered := triggered },
       { alertId := alert.id
         alertName := alert.name
         triggered := triggered
         previousState := some previousState
         currentValue := currentValue
         threshold := none
         parameter := alert.parameter
         latitude := alert.latitude.getD 0
         longitude := alert.longitude.getD 0
         cityName := alert.cityName })

/-- EventDrivenAlertEvaluationUseCase.handleAlertEvaluation: the number of
notification events published for one alert evaluation event.  The source
publishes one notification when alertData.triggered is truthy and
alertData.previousState is falsy, and none otherwise; a resolved transition
only produces a log line. -/
def notificationEventCount (alertData : AlertEventData) : Nat :=
  if alertData.triggered && !(alertData.previousState.getD false) then 1 else 0

/-- One round of the event-driven engine for a single alert: evaluate the
alert against the weather event (evaluateAlertWithEvent), apply the
repository write if one was issued, and count the notifications emitted by
the evaluation-event consumer for the published event. -/
def eventDrivenStep (now : Int) (alert : AlertRecord) (w : WeatherEventData) :
    AlertRecord × Nat :=
  match evaluateAlertWithEvent alert w with
  | none => (alert, 0)
  | some (write, ev) =>
    (updateAlertAfterEvaluation alert write.currentValue write.triggered now,
     notificationEventCount ev)

/-- A sequence of event-driven evaluations of one alert: the final stored
record and the total number of notifications published. -/
def eventRun (now : Int) (alert : AlertRecord) :
    List WeatherEventData → AlertRecord × Nat
  | [] => (alert, 0)
  | w :: ws =>
    let s := eventDrivenStep now alert w
    let r := eventRun now s.1 ws
    (r.1, s.2 + r.2)

/-- The sequence of stored lastState values (coerced from null to false the
way the engine reads them) left behind by a run of the event-driven engine. -/
def eventTriggerTrace (now : Int) (alert : AlertRecord) :
    List WeatherEventData → List Bool
  | [] => []
  | w :: ws =>
    let s := eventDrivenStep now alert w
    (s.1.lastState.getD false) :: eventTriggerTrace now s.1 ws

/-- Specification-side count of newly-triggered edges in a state sequence:
positions whose state is true while the preceding state (or the initial
state for the first position) is false. -/
def newlyTriggeredEdges (prev : Bool) : List Bool → Nat
  | [] => 0
  | b :: bs => (if b && !prev then 1 else 0) + newlyTriggeredEdges b bs

/-- EventDrivenAlertEvaluationUseCase.handleWeatherUpdate: fan the weather
event out to the alerts near its location and settle every per-alert
evaluation.  Per-alert failures are injected through the fails oracle; a
failed evaluation settles as rejected (none), everything else settles as
fulfilled with the effect of evaluateAlertWithEvent.  Promise.allSettled
awaits every promise, so each matched alert contributes one settled entry
no matter how the others fare. -/
def handleWeatherUpdate (alerts : List AlertRecord) (w : WeatherEventData)
    (fails : AlertRecord → Bool) :
    List (String × Option (Option (EvaluationWrite × AlertEventData))) :=
  (findAlertsForLocation alerts w.latitude w.longitude (1 / 100)).map fun alert =>
    (alert.id, if fails alert then none else some (evaluateAlertWithEvent alert w))

end Tomorrow

namespace Tomorrow

/-- C7 counterexample: the claim states that alerts with a null location are
never matched.  In the code a null coordinate is coerced to 0 by
alert.latitude || 0, so an alert with no location at all is matched by an
observation at (0, 0): findAlertsForLocation returns it. -/
theorem c7_counterexample :
    findAlertsForLocation
      [⟨"a1", none, none, none, none, none, "TEMPERATURE", .GT, 30, none,
        none, none, none, none, none⟩] 0 0 (1 / 100) =
      [⟨"a1", none, none, none, none, none, "TEMPERATURE", .GT, 30, none,
        none, none, none, none, none⟩] := by
  norm_num [findAlertsForLocation, List.filter]

/-- C7 amended: the matcher returns exactly the alerts whose coordinates,
with null coerced to 0, differ from the observation by at most the
tolerance on each axis; in particular an alert with a null location is
matched exactly when the observation is within tolerance of (0, 0). -/
theorem c7_amended_matching (alerts : List AlertRecord) (lat lon tol : ℚ)
    (a : AlertRecord) :
    a ∈ findAlertsForLocation alerts lat lon tol ↔
      a ∈ alerts ∧ |a.latitude.getD 0 - lat| ≤ tol ∧
        |a.longitude.getD 0 - lon| ≤ tol := by
  simp [findAlertsForLocation, List.mem_filter, and_assoc]

end Tomorrow

namespace Tomorrow

/-! ### Weather data and the scheduler sweep -/

/-- Raw values object of the upstream Tomorrow.io response
(data.data.values in tomorrow-weather.provider.ts). -/
structure UpstreamValues where
  temperature : Option ℚ
  windSpeed : Option ℚ
  rainIntensity : Option ℚ
  snowIntensity : Option ℚ
  sleetIntensity : Option ℚ
  freezingRainIntensity : Option ℚ
  deriving Repr, DecidableEq

/-- The raw field of a RealtimeWeatherData value: either the upstream
response body, or one of the two demo-data objects the provider
synthesizes (distinguished in the source only by their message strings). -/
inductive RawPayload
  | upstream (values : UpstreamValues)
  | demoCooldown (lat lon : ℚ)
  | demoRateLimited (lat lon : ℚ)
  deriving Repr, DecidableEq

/-- RealtimeWeatherData (ports/weather-provider.ts).  Note that the type has
exactly the four fields below: it carries no degraded flag. -/
structure RealtimeWeatherData where
  temperatureC : Option ℚ
  windSpeedMps : Option ℚ
  precipitationMmHr : Option ℚ
  raw : RawPayload
  deriving Repr, DecidableEq

/-- Whether a RealtimeWeatherData value is one of the synthesized demo
observations, recognizable only through its raw demo message object. -/
def RealtimeWeatherData.isDemo (d : RealtimeWeatherData) : Bool :=
  match d.raw with
  | .upstream _ => false
  | .demoCooldown _ _ => true
  | .demoRateLimited _ _ => true

/-- The values record the scheduler sweep hands to evaluateAlertCondition
(evaluate-all-alerts.use-case.ts): temperature and wind pass through with
null preserved, while a null precipitation is replaced by 0. -/
def sweepValues (d : RealtimeWeatherData) : WeatherValues :=
  { temperatureC := d.temperatureC
    windSpeedMps := d.windSpeedMps
    precipitationMmHr := some (d.precipitationMmHr.getD 0) }

/-- Outcome of one sweep of EvaluateAllAlertsUseCase.execute: the repository
writes performed, the triggered alerts collected for the return value, and
whether an exception escaped the loop (aborting it). -/
structure SweepResult where
  writes : List EvaluationWrite
  triggeredAlerts : List AlertRecord
  aborted : Bool
  deriving Repr, DecidableEq

/-- EvaluateAllAlertsUseCase.execute.  The loop body runs without any
per-alert try/catch: alerts with a missing coordinate are skipped with a
warning, and an exception from the weather provider (modelled by the fetch
argument returning an error) propagates out of the loop, so no later alert
is evaluated.  On success the alert is evaluated, written back, and pushed
onto the triggered list when its condition holds. -/
def evaluateAllAlerts (fetch : ℚ → ℚ → Except String RealtimeWeatherData) :
    List AlertRecord → SweepResult
  | [] => ⟨[], [], false⟩
  | alert :: rest =>
    match alert.latitude, alert.longitude with
    | some lat, some lon =>
      (match fetch lat lon with
       | .error _ => ⟨[], [], true⟩
       | .ok weatherData =>
         let e := evaluateAlertCondition alert.parameter alert.operator
           alert.threshold (sweepValues weatherData)
         let r := evaluateAllAlerts fetch rest
         ⟨⟨alert.id, e.1, e.2⟩ :: r.writes,
          (if e.2 then [{ alert with lastValue := e.1 }] else []) ++ r.triggeredAlerts,
          r.aborted⟩)
    | _, _ => evaluateAllAlerts fetch rest

/-- AlertEvaluationScheduler.sendNotification: nothing is sent when the
alert has no contact channel; otherwise one email per contactEmail and one
SMS per contactPhone. -/
def sendNotificationCount (alert : AlertRecord) : Nat :=
  if alert.contactEmail.isNone && alert.contactPhone.isNone then 0
  else (if alert.contactEmail.isSome then 1 else 0) +
    (if alert.contactPhone.isSome then 1 else 0)

/-- One tick of AlertEvaluationScheduler.start: run the sweep and, when it
did not throw, send notifications for every alert in its triggered list.
A sweep that threw is caught at the cron callback and sends nothing. -/
def scheduledSweepNotifications
    (fetch : ℚ → ℚ → Except String RealtimeWeatherData)
    (alerts : List AlertRecord) : Nat :=
  let r := evaluateAllAlerts fetch alerts
  if r.aborted then 0
  else (r.triggeredAlerts.map sendNotificationCount).sum

end Tomorrow

namespace Tomorrow

/-- C2 counterexample: the claim states that on the scheduler sweep an
exception evaluating one alert does not prevent the evaluation of the
remaining alerts.  With two alerts and a provider that throws for the first
location only, the sweep aborts with no writes at all, although the second
alert on its own evaluates fine (second conjunct). -/
theorem c2_counterexample :
    evaluateAllAlerts
      (fun lat _ => if lat = 10 then Except.error "boom"
        else Except.ok ⟨some 25, some 3, some 0,
          .upstream ⟨some 25, some 3, some 0, some 0, some 0, some 0⟩⟩)
      [⟨"a1", none, none, none, some 10, some 10, "TEMPERATURE", .GT, 30,
        none, none, none, none, none, none⟩,
       ⟨"a2", none, none, none, some 20, some 20, "TEMPERATURE", .GT, 30,
        none, none, none, none, none, none⟩] = ⟨[], [], true⟩ ∧
    evaluateAllAlerts
      (fun lat _ => if lat = 10 then Except.error "boom"
        else Except.ok ⟨some 25, some 3, some 0,
          .upstream ⟨some 25, some 3, some 0, some 0, some 0, some 0⟩⟩)
      [⟨"a2", none, none, none, some 20, some 20, "TEMPERATURE", .GT, 30,
        none, none, none, none, none, none⟩] =
      ⟨[⟨"a2", some 25, false⟩], [], false⟩ := by
  constructor <;>
    norm_num [evaluateAllAlerts, evaluateAlertCondition, valueMapLookup,
      applyOperator, sweepValues]

/-- C2 amended: on the event-driven fan-out every matched alert is settled
(Promise.allSettled), whatever per-alert failures occur; on the scheduler
sweep, by contrast, an exception evaluating the first alert aborts the
sweep, producing no writes for any remaining alert. -/
theorem c2_amended_isolation :
    (∀ (alerts : List AlertRecord) (w : WeatherEventData)
       (fails : AlertRecord → Bool),
      (handleWeatherUpdate alerts w fails).map Prod.fst =
        (findAlertsForLocation alerts w.latitude w.longitude (1 / 100)).map
          AlertRecord.id) ∧
    (∀ (fetch : ℚ → ℚ → Except String RealtimeWeatherData)
       (alert : AlertRecord) (rest : List AlertRecord) (lat lon : ℚ)
       (e : String),
      alert.latitude = some lat → alert.longitude = some lon →
      fetch lat lon = Except.error e →
      evaluateAllAlerts fetch (alert :: rest) = ⟨[], [], true⟩) := by
  constructor
  · intro alerts w fails
    simp [handleWeatherUpdate, List.map_map, Function.comp]
  · intro fetch alert rest lat lon e hlat hlon hf
    simp [evaluateAllAlerts, hlat, hlon, hf]

/-- C2 witness: the amended statement applied at concrete inputs. -/
theorem c2_witness :
    (handleWeatherUpdate [] ⟨0, 0, none, none, none, "api"⟩
        (fun _ => false)).map Prod.fst =
      (findAlertsForLocation [] 0 0 (1 / 100)).map AlertRecord.id ∧
    evaluateAllAlerts (fun _ _ => Except.error "down")
      [⟨"w1", none, none, none, some 1, some 2, "TEMPERATURE", .GT, 0, none,
        none, none, none, none, none⟩] = ⟨[], [], true⟩ :=
  ⟨c2_amended_isolation.1 [] ⟨0, 0, none, none, none, "api"⟩ (fun _ => false),
   c2_amended_isolation.2 (fun _ _ => Except.error "down")
     ⟨"w1", none, none, none, some 1, some 2, "TEMPERATURE", .GT, 0, none,
       none, none, none, none, none⟩ [] 1 2 "down" rfl rfl rfl⟩

end Tomorrow

namespace Tomorrow

/-- The triggered flag the event path computes for an alert and an extracted
value: the condition evaluator applied to the uppercased parameter with the
undefined alert.value threshold. -/
def eventTriggered (alert : AlertRecord) (currentValue : ℚ) : Bool :=
  (evaluateAlertConditionJs (jsToUpperCase alert.parameter) alert.operator none
    ⟨if alert.parameter = "temperature" then some currentValue else none,
     if alert.parameter = "windSpeed" then some currentValue else none,
     if alert.parameter = "precipitation" then some currentValue else none⟩).2

/-- Shape of evaluateAlertWithEvent when the weather event carries a value
for the alert parameter. -/
theorem evaluateAlertWithEvent_eq_some (a : AlertRecord) (w : WeatherEventData)
    (cv : ℚ) (h : extractWeatherValue w a.parameter = some cv) :
    evaluateAlertWithEvent a w =
      some (⟨a.id, some cv, eventTriggered a cv⟩,
        ⟨a.id, a.name, eventTriggered a cv, some (a.lastState.getD false), cv,
          none, a.parameter, a.latitude.getD 0, a.longitude.getD 0,
          a.cityName⟩) := by
  unfold evaluateAlertWithEvent eventTriggered
  rw [h]

/-- Shape of one event-driven round when the weather event carries a value
for the alert parameter: the record is written with the new value and state
and the stamp, and one notification is emitted exactly when the new state is
true and the previously stored state was false or null. -/
theorem eventDrivenStep_eq_some (now : Int) (a : AlertRecord)
    (w : WeatherEventData) (cv : ℚ)
    (h : extractWeatherValue w a.parameter = some cv) :
    eventDrivenStep now a w =
      (updateAlertAfterEvaluation a (some cv) (eventTriggered a cv) now,
       if eventTriggered a cv && !(a.lastState.getD false) then 1 else 0) := by
  unfold eventDrivenStep
  rw [evaluateAlertWithEvent_eq_some a w cv h]
  simp [notificationEventCount]

end Tomorrow

namespace Tomorrow

/-- C1 counterexample: the claim requires exactly one notification per
TRIGGERED to NOT_TRIGGERED transition.  A concrete event-driven round that
takes an alert with stored state true to stored state false emits zero
notifications (the source only publishes a notification for newly triggered
alerts and merely logs resolutions). -/
theorem c1_counterexample :
    eventDrivenStep 0
      ⟨"a1", none, none, none, some 10, some 10, "temperature", .GT, 30,
        none, none, none, none, some true, none⟩
      ⟨10, 10, some 20, none, none, "api"⟩ =
      (⟨"a1", none, none, none, some 10, some 10, "temperature", .GT, 30,
        none, none, none, some 20, some false, some 0⟩, 0) := by
  rfl

/-- C1 amended: on the event-driven path a notification is published exactly
once per transition into the triggered state from a stored false or null
state, and zero notifications for every other evaluation, including
resolutions; on the scheduler path a sweep sends notifications for every
alert whose current evaluation is triggered and that has a contact channel,
independently of the previously stored state, so repeated triggered sweeps
notify again each time. -/
theorem c1_amended_notification_semantics :
    (∀ (now : Int) (alert : AlertRecord) (ws : List WeatherEventData),
      (∀ w ∈ ws, extractWeatherValue w alert.parameter ≠ none) →
      (eventRun now alert ws).2 =
        newlyTriggeredEdges (alert.lastState.getD false)
          (eventTriggerTrace now alert ws)) ∧
    (∀ (fetch : ℚ → ℚ → Except String RealtimeWeatherData)
       (alert : AlertRecord) (lat lon : ℚ) (d : RealtimeWeatherData),
      alert.latitude = some lat → alert.longitude = some lon →
      fetch lat lon = Except.ok d →
      (evaluateAlertCondition alert.parameter alert.operator alert.threshold
        (sweepValues d)).2 = true →
      alert.contactEmail.isSome = true →
      scheduledSweepNotifications fetch [{ alert with lastState := some true }] =
          scheduledSweepNotifications fetch [alert] ∧
        1 ≤ scheduledSweepNotifications fetch [alert]) := by
  constructor
  · intro now alert ws
    induction ws generalizing alert with
    | nil => intro _; rfl
    | cons w ws ih =>
      intro h
      obtain ⟨cv, hcv⟩ :=
        Option.ne_none_iff_exists'.mp (h w (List.mem_cons_self w ws))
      have hstep := eventDrivenStep_eq_some now alert w cv hcv
      have hih := ih (updateAlertAfterEvaluation alert (some cv)
        (eventTriggered alert cv) now)
        (fun x hx => h x (List.mem_cons_of_mem w hx))
      simp only [updateAlertAfterEvaluation, Option.getD_some] at hih
      simp only [eventRun, eventTriggerTrace, hstep,
        updateAlertAfterEvaluation, Option.getD_some, newlyTriggeredEdges, hih]
  · intro fetch alert lat lon d hlat hlon hf htrig hmail
    obtain ⟨m, hm⟩ := Option.isSome_iff_exists.mp hmail
    constructor
    · simp [scheduledSweepNotifications, evaluateAllAlerts, hlat, hlon, hf,
        htrig, sendNotificationCount, hm]
    · simp [scheduledSweepNotifications, evaluateAllAlerts, hlat, hlon, hf,
        htrig, sendNotificationCount, hm]

end Tomorrow

namespace Tomorrow

/-- C1 witness: the amended statement applied at concrete inputs, on the
event path (a single newly-triggering observation) and on the scheduler
path (an already-triggered alert with an email contact). -/
theorem c1_witness :
    (eventRun 0
      ⟨"a1", none, none, none, some 10, some 10, "temperature", .GT, 30,
        none, some "u", none, none, none, none⟩
      [⟨10, 10, some 35, none, none, "api"⟩]).2 =
      newlyTriggeredEdges
        ((⟨"a1", none, none, none, some 10, some 10, "temperature", .GT, 30,
          none, some "u", none, none, none, none⟩ :
            AlertRecord).lastState.getD false)
        (eventTriggerTrace 0
          ⟨"a1", none, none, none, some 10, some 10, "temperature", .GT, 30,
            none, some "u", none, none, none, none⟩
          [⟨10, 10, some 35, none, none, "api"⟩]) ∧
    (scheduledSweepNotifications
        (fun _ _ => Except.ok ⟨some 35, some 3, some 0,
          .upstream ⟨some 35, some 3, some 0, some 0, some 0, some 0⟩⟩)
        [{ (⟨"b1", none, none, none, some 1, some 2, "TEMPERATURE", .GT, 30,
            none, some "u", none, none, none, none⟩ : AlertRecord) with
            lastState := some true }] =
      scheduledSweepNotifications
        (fun _ _ => Except.ok ⟨some 35, some 3, some 0,
          .upstream ⟨some 35, some 3, some 0, some 0, some 0, some 0⟩⟩)
        [⟨"b1", none, none, none, some 1, some 2, "TEMPERATURE", .GT, 30,
          none, some "u", none, none, none, none⟩] ∧
      1 ≤ scheduledSweepNotifications
        (fun _ _ => Except.ok ⟨some 35, some 3, some 0,
          .upstream ⟨some 35, some 3, some 0, some 0, some 0, some 0⟩⟩)
        [⟨"b1", none, none, none, some 1, some 2, "TEMPERATURE", .GT, 30,
          none, some "u", none, none, none, none⟩]) :=
  ⟨c1_amended_notification_semantics.1 0 _ _
      (by
        intro w hw
        simp only [List.mem_singleton] at hw
        subst hw
        simp [extractWeatherValue]),
   c1_amended_notification_semantics.2 _ _ 1 2 _ rfl rfl rfl
      (by norm_num [evaluateAlertCondition, valueMapLookup, applyOperator,
        sweepValues]) rfl⟩

end Tomorrow

namespace Tomorrow

/-- C8 counterexample: the claim states the engine writes the evaluation
result unconditionally, including when the selected observation value is
null.  On the event-driven path an alert whose parameter reading is null in
the weather event makes evaluateAlertWithEvent return before the repository
write: no write and no event at all. -/
theorem c8_counterexample :
    evaluateAlertWithEvent
      ⟨"a1", none, none, none, some 10, some 10, "precipitation", .GT, 1,
        none, none, none, none, some false, none⟩
      ⟨10, 10, some 20, some 5, none, "api"⟩ = none := by
  rfl

/-- C8 amended: the scheduler sweep writes
(lastValue = currentValue, lastState = triggered, lastEvaluatedAt = now)
unconditionally for every alert with coordinates, even when the value is
null or the state unchanged; the event-driven path instead performs the
write exactly when the weather event carries a non-null value for the alert
parameter, and then writes that value and the computed state even when the
state is unchanged. -/
theorem c8_amended_persistence :
    (∀ (fetch : ℚ → ℚ → Except String RealtimeWeatherData)
       (alert : AlertRecord) (rest : List AlertRecord) (lat lon : ℚ)
       (d : RealtimeWeatherData),
      alert.latitude = some lat → alert.longitude = some lon →
      fetch lat lon = Except.ok d →
      (evaluateAllAlerts fetch (alert :: rest)).writes =
        ⟨alert.id,
         (evaluateAlertCondition alert.parameter alert.operator
           alert.threshold (sweepValues d)).1,
         (evaluateAlertCondition alert.parameter alert.operator
           alert.threshold (sweepValues d)).2⟩ ::
          (evaluateAllAlerts fetch rest).writes) ∧
    (∀ (a : AlertRecord) (cv : Option ℚ) (trig : Bool) (now : Int),
      (updateAlertAfterEvaluation a cv trig now).lastValue = cv ∧
      (updateAlertAfterEvaluation a cv trig now).lastState = some trig ∧
      (updateAlertAfterEvaluation a cv trig now).lastEvaluatedAt = some now) ∧
    (∀ (a : AlertRecord) (w : WeatherEventData),
      (evaluateAlertWithEvent a w).map Prod.fst =
        (extractWeatherValue w a.parameter).map
          (fun cv => ⟨a.id, some cv, eventTriggered a cv⟩)) := by
  refine ⟨?_, ?_, ?_⟩
  · intro fetch alert rest lat lon d hlat hlon hf
    simp [evaluateAllAlerts, hlat, hlon, hf]
  · intro a cv trig now
    exact ⟨rfl, rfl, rfl⟩
  · intro a w
    cases hx : extractWeatherValue w a.parameter with
    | none => simp [evaluateAlertWithEvent, hx]
    | some cv => rw [evaluateAlertWithEvent_eq_some a w cv hx]; rfl

/-- C8 witness: the amended statement applied at concrete inputs; the sweep
conjunct is instantiated with an observation whose temperature is null, so
the recorded write carries a null currentValue. -/
theorem c8_witness :
    (evaluateAllAlerts (fun _ _ => Except.ok ⟨none, none, none,
        .upstream ⟨none, none, none, none, none, none⟩⟩)
      [⟨"s1", none, none, none, some 3, some 4, "TEMPERATURE", .GT, 30, none,
        none, none, none, none, none⟩]).writes =
      ⟨"s1",
       (evaluateAlertCondition "TEMPERATURE" .GT 30
         (sweepValues ⟨none, none, none,
           .upstream ⟨none, none, none, none, none, none⟩⟩)).1,
       (evaluateAlertCondition "TEMPERATURE" .GT 30
         (sweepValues ⟨none, none, none,
           .upstream ⟨none, none, none, none, none, none⟩⟩)).2⟩ ::
        (evaluateAllAlerts (fun _ _ => Except.ok ⟨none, none, none,
          .upstream ⟨none, none, none, none, none, none⟩⟩) []).writes ∧
    ((updateAlertAfterEvaluation
        ⟨"s1", none, none, none, some 3, some 4, "TEMPERATURE", .GT, 30,
          none, none, none, none, some true, none⟩ none false 7).lastValue =
        none ∧
      (updateAlertAfterEvaluation
        ⟨"s1", none, none, none, some 3, some 4, "TEMPERATURE", .GT, 30,
          none, none, none, none, some true, none⟩ none false 7).lastState =
        some false ∧
      (updateAlertAfterEvaluation
        ⟨"s1", none, none, none, some 3, some  4, "TEMPERATURE", .GT, 30,
          none, none, none, none, some true, none⟩ none false 7).lastEvaluatedAt =
        some 7) :=
  ⟨(c8_amended_persistence.1 _ _ [] 3 4 _ rfl rfl rfl),
   c8_amended_persistence.2.1 _ none false 7⟩

end Tomorrow

namespace Tomorrow

/-! ### Circuit breaker (shared/utils/circuit-breaker.ts) -/

/-- Circuit breaker states. -/
inductive CircuitState
  | CLOSED | OPEN | HALF_OPEN
  deriving Repr, DecidableEq

/-- CircuitBreakerConfig: thresholds and timeouts in milliseconds. -/
structure CircuitBreakerConfig where
  failureThreshold : Int
  recoveryTimeout : Int
  monitoringPeriod : Int
  minimumRequests : Int
  deriving Repr, DecidableEq

/-- Mutable fields of the CircuitBreaker class. -/
structure CircuitBreakerState where
  state : CircuitState
  failureCount : Int
  requestCount : Int
  lastFailureTime : Int
  windowStart : Int
  deriving Repr, DecidableEq

/-- CircuitBreaker.resetCounters: zero both counters and restart the window
at the current time. -/
def resetCounters (s : CircuitBreakerState) (now : Int) : CircuitBreakerState :=
  { s with failureCount := 0, requestCount := 0, windowStart := now }

/-- CircuitBreaker.shouldAttemptReset: the recovery timeout has elapsed
since the last recorded failure. -/
def shouldAttemptReset (cfg : CircuitBreakerConfig) (s : CircuitBreakerState)
    (now : Int) : Bool :=
  decide (now - s.lastFailureTime ≥ cfg.recoveryTimeout)

/-- CircuitBreaker.onSuccess: reset the counters and close the circuit when
the trial call of the HALF_OPEN state succeeded. -/
def onSuccess (s : CircuitBreakerState) (now : Int) : CircuitBreakerState :=
  let s1 := resetCounters s now
  if s1.state = CircuitState.HALF_OPEN then { s1 with state := CircuitState.CLOSED }
  else s1

/-- CircuitBreaker.onFailure followed by shouldOpenCircuit: count the
failure, record its time, reopen immediately from HALF_OPEN, otherwise
restart an expired window or open the circuit when both counters reach
their thresholds inside the window. -/
def onFailure (cfg : CircuitBreakerConfig) (s : CircuitBreakerState)
    (now : Int) : CircuitBreakerState :=
  let s1 := { s with failureCount := s.failureCount + 1, requestCount := s.requestCount + 1, lastFailureTime := now }
  if s1.state = CircuitState.HALF_OPEN then { s1 with state := CircuitState.OPEN }
  else if cfg.monitoringPeriod < now - s1.windowStart then resetCounters s1 now
  else if cfg.minimumRequests ≤ s1.requestCount ∧ cfg.failureThreshold ≤ s1.failureCount then
    { s1 with state := CircuitState.OPEN }
  else s1

/-- Outcome of the wrapped operation, when it is invoked. -/
inductive ExecOutcome
  | success | failure
  deriving Repr, DecidableEq

/-- Observable result of one CircuitBreaker.execute call: either the
rejection thrown while the circuit is open, or an invocation of the
operation, recording the breaker state at the moment of invocation. -/
inductive ExecResult
  | rejected
  | invoked (stateAtInvocation : CircuitState) (ok : Bool)
  deriving Repr, DecidableEq

/-- CircuitBreaker.execute: reject while OPEN before the recovery timeout;
move to HALF_OPEN on the first call after it; then run the operation and
apply onSuccess or onFailure.  tStart is the clock reading at entry and
tEnd the reading when the operation settles. -/
def executeStep (cfg : CircuitBreakerConfig) (s : CircuitBreakerState)
    (tStart : Int) (outcome : ExecOutcome) (tEnd : Int) :
    ExecResult × CircuitBreakerState :=
  if s.state = CircuitState.OPEN ∧ shouldAttemptReset cfg s tStart = false then
    (ExecResult.rejected, s)
  else
    let s1 := if s.state = CircuitState.OPEN then { s with state := CircuitState.HALF_OPEN } else s
    match outcome with
    | .success => (ExecResult.invoked s1.state true, onSuccess s1 tEnd)
    | .failure => (ExecResult.invoked s1.state false, onFailure cfg s1 tEnd)

end Tomorrow

namespace Tomorrow

/-- C5: a failure inside the monitoring window that brings the counters to
at least minimumRequests recorded requests and failureThreshold failures
opens the circuit; every execute call in the OPEN state before the recovery
timeout has elapsed since the last failure is rejected without invoking the
operation; the first call after the timeout invokes the operation in the
HALF_OPEN state, and on success the state is CLOSED with both counters
reset to zero. -/
theorem c5_circuit_breaker (cfg : CircuitBreakerConfig)
    (s : CircuitBreakerState) :
    (∀ t tEnd : Int, s.state = CircuitState.CLOSED →
      tEnd - s.windowStart ≤ cfg.monitoringPeriod →
      cfg.minimumRequests ≤ s.requestCount + 1 →
      cfg.failureThreshold ≤ s.failureCount + 1 →
      (executeStep cfg s t .failure tEnd).2.state = CircuitState.OPEN) ∧
    (∀ (t : Int) (outcome : ExecOutcome) (tEnd : Int),
      s.state = CircuitState.OPEN →
      t - s.lastFailureTime < cfg.recoveryTimeout →
      executeStep cfg s t outcome tEnd = (ExecResult.rejected, s)) ∧
    (∀ t tEnd : Int, s.state = CircuitState.OPEN →
      cfg.recoveryTimeout ≤ t - s.lastFailureTime →
      (executeStep cfg s t .success tEnd).1 =
        ExecResult.invoked CircuitState.HALF_OPEN true ∧
      (executeStep cfg s t .success tEnd).2.state = CircuitState.CLOSED ∧
      (executeStep cfg s t .success tEnd).2.failureCount = 0 ∧
      (executeStep cfg s t .success tEnd).2.requestCount = 0) := by
  refine ⟨?_, ?_, ?_⟩
  · intro t tEnd hs hwin hreq hfail
    have hnwin : ¬ cfg.monitoringPeriod < tEnd - s.windowStart := not_lt.mpr hwin
    simp [executeStep, onFailure, resetCounters, hs, hnwin, hreq, hfail]
  · intro t outcome tEnd hs hcold
    have hnr : shouldAttemptReset cfg s t = false := by
      simp [shouldAttemptReset]
      linarith
    simp [executeStep, hs, hnr]
  · intro t tEnd hs hwait
    have hr : shouldAttemptReset cfg s t = true := by
      simp [shouldAttemptReset]
      linarith
    refine ⟨?_, ?_, ?_, ?_⟩ <;>
      simp [executeStep, onSuccess, resetCounters, hs, hr]

/-- C5 witness: the source default tuning (threshold 3, recovery 30s,
window 60s, minimum 2); a third failure at t = 1000 opens the circuit, a
call 10 seconds after the last failure is rejected, and a call 31 seconds
after it runs in HALF_OPEN and closes the circuit with cleared counters. -/
theorem c5_witness :
    (executeStep ⟨3, 30000, 60000, 2⟩ ⟨.CLOSED, 2, 2, 500, 0⟩ 1000 .failure
      1000).2.state = CircuitState.OPEN ∧
    executeStep ⟨3, 30000, 60000, 2⟩ ⟨.OPEN, 3, 3, 1000, 0⟩ 11000 .failure
      11000 = (ExecResult.rejected, ⟨.OPEN, 3, 3, 1000, 0⟩) ∧
    (executeStep ⟨3, 30000, 60000, 2⟩ ⟨.OPEN, 3, 3, 1000, 0⟩ 32000 .success
      32000).1 = ExecResult.invoked CircuitState.HALF_OPEN true ∧
    (executeStep ⟨3, 30000, 60000, 2⟩ ⟨.OPEN, 3, 3, 1000, 0⟩ 32000 .success
      32000).2.state = CircuitState.CLOSED ∧
    (executeStep ⟨3, 30000, 60000, 2⟩ ⟨.OPEN, 3, 3, 1000, 0⟩ 32000 .success
      32000).2.failureCount = 0 ∧
    (executeStep ⟨3, 30000, 60000, 2⟩ ⟨.OPEN, 3, 3, 1000, 0⟩ 32000 .success
      32000).2.requestCount = 0 := by
  have h1 := (c5_circuit_breaker ⟨3, 30000, 60000, 2⟩
    ⟨.CLOSED, 2, 2, 500, 0⟩).1 1000 1000 rfl (by norm_num) (by norm_num)
    (by norm_num)
  have h2 := (c5_circuit_breaker ⟨3, 30000, 60000, 2⟩
    ⟨.OPEN, 3, 3, 1000, 0⟩).2.1 11000 .failure 11000 rfl (by norm_num)
  have h3 := (c5_circuit_breaker ⟨3, 30000, 60000, 2⟩
    ⟨.OPEN, 3, 3, 1000, 0⟩).2.2 32000 32000 rfl (by norm_num)
  exact ⟨h1, h2, h3.1, h3.2.1, h3.2.2.1, h3.2.2.2⟩

end Tomorrow

namespace Tomorrow

/-! ### Weather gateway (tomorrow-weather.provider.ts) -/

/-- Result of one HTTP attempt inside the retry loop: the parsed response
values on success, or an error carrying an optional HTTP status plus an
optional retry-after header.  A timeout or network failure has no response
and therefore no status. -/
inductive AttemptResult
  | ok (values : UpstreamValues)
  | fail (status : Option Int) (retryAfter : Option ℚ)
  deriving Repr, DecidableEq

/-- The isRetryable test of the retry loop: status === 429 or a 5xx status.
An error without a status (timeout or network failure) compares as false on
every clause, so it is not retryable. -/
def isRetryableStatus (status : Option Int) : Bool :=
  match status with
  | some st => decide (st = 429) || (decide (500 ≤ st) && decide (st < 600))
  | none => false

/-- Mapping of the upstream response body into RealtimeWeatherData:
temperature and wind pass through with null preserved, precipitation is the
sum of the four intensity fields with null read as 0. -/
def mapUpstreamValues (values : UpstreamValues) : RealtimeWeatherData :=
  { temperatureC := values.temperature
    windSpeedMps := values.windSpeed
    precipitationMmHr := some (values.rainIntensity.getD 0 +
      values.snowIntensity.getD 0 + values.sleetIntensity.getD 0 +
      values.freezingRainIntensity.getD 0)
    raw := .upstream values }

/-- The Math.random-derived numbers of a synthesized demo observation,
passed in as parameters since the source draws them nondeterministically. -/
structure DemoValues where
  temperatureC : ℚ
  windSpeedMps : ℚ
  precipitationMmHr : ℚ
  deriving Repr, DecidableEq

/-- The demo observation served during an active rate-limit cooldown. -/
def mockCooldownResult (demo : DemoValues) (lat lon : ℚ) : RealtimeWeatherData :=
  ⟨some demo.temperatureC, some demo.windSpeedMps,
    some demo.precipitationMmHr, .demoCooldown lat lon⟩

/-- The demo observation served when the retry attempts end in a 429. -/
def mockRateLimitedResult (demo : DemoValues) (lat lon : ℚ) :
    RealtimeWeatherData :=
  ⟨some demo.temperatureC, some demo.windSpeedMps,
    some demo.precipitationMmHr, .demoRateLimited lat lon⟩

/-- Rounding of a coordinate by toFixed(3) when the cache key is built. -/
def quantize3 (q : ℚ) : ℚ := ((round (q * 1000) : ℤ) : ℚ) / 1000

/-- Cache key: both coordinates fixed to three decimals plus the units. -/
abbrev CacheKey := ℚ × ℚ × String

/-- Builds the cache key of a request. -/
def cacheKey (lat lon : ℚ) (units : String) : CacheKey :=
  (quantize3 lat, quantize3 lon, units)

/-- An entry of the in-memory response cache. -/
structure CacheEntry where
  value : RealtimeWeatherData
  expiresAt : Int
  deriving Repr, DecidableEq

/-- Map.get on the in-memory cache. -/
def cacheGet (cache : List (CacheKey × CacheEntry)) (k : CacheKey) :
    Option CacheEntry :=
  match cache with
  | [] => none
  | (k1, e) :: rest => if k = k1 then some e else cacheGet rest k

/-- Map.set on the in-memory cache (replaces any entry under the key). -/
def cacheSet (cache : List (CacheKey × CacheEntry)) (k : CacheKey)
    (e : CacheEntry) : List (CacheKey × CacheEntry) :=
  (k, e) :: cache.filter fun p => !decide (p.1 = k)

/-- The fresh-hit check of getRealtime: a cached value still valid at the
given time (an expired entry is ignored, not removed). -/
def cacheFresh (cache : List (CacheKey × CacheEntry)) (k : CacheKey)
    (now : Int) : Option RealtimeWeatherData :=
  match cacheGet cache k with
  | some entry => if now < entry.expiresAt then some entry.value else none
  | none => none

/-- Mutable provider state relevant to a single sequential call: the
response cache and the rate-limit cooldown deadline.  The in-flight map is
modelled separately for the coalescing claim. -/
structure ProviderState where
  cache : List (CacheKey × CacheEntry)
  rateLimitResetTime : Int
  deriving Repr, DecidableEq

/-- Outcome of the retry loop inside circuitBreaker.execute. -/
inductive LoopOutcome
  | returned (d : RealtimeWeatherData)
  | thrown (status : Option Int)
  deriving Repr, DecidableEq

/-- Observable trace of the retry loop: its outcome, the provider state it
leaves behind, the number of HTTP attempts issued, and the backoff delays
slept between attempts. -/
structure LoopResult where
  outcome : LoopOutcome
  state : ProviderState
  attemptsMade : Nat
  delays : List ℚ
  deriving Repr, DecidableEq

/-- The inter-attempt backoff in milliseconds: an upstream retry-after
value is honored in seconds, otherwise exponential backoff with base 400 ms
doubling per attempt plus random jitter (passed in as a parameter). -/
def backoffDelayMs (retryAfter : Option ℚ) (attempt : Nat) (jitter : ℚ) : ℚ :=
  match retryAfter with
  | some ra => ra * 1000
  | none => 400 * 2 ^ (attempt - 1) + jitter

/-- The adaptive retry loop of getRealtime, recursing on the number of
attempts left after the current one (the source runs attempts 1 to 4, so
the loop is entered with attempt = 1 and left = 3).  A success caches and
returns the mapped result.  A failure that is not retryable, or one on the
final attempt, returns the rate-limited demo observation and starts the 60
second cooldown when the status is 429, and otherwise rethrows.  Any other
failure sleeps the backoff delay and retries. -/
def retryLoopGo (attempts : Nat → AttemptResult) (jitter : Nat → ℚ)
    (demo : DemoValues) (lat lon : ℚ) (key : CacheKey) (now : Int)
    (cacheTtlMs : Int) (s : ProviderState) :
    Nat → Nat → LoopResult
  | attempt, left =>
    match attempts attempt with
    | .ok values =>
      let result := mapUpstreamValues values
      ⟨.returned result,
       { s with cache := cacheSet s.cache key ⟨result, now + cacheTtlMs⟩ },
       1, []⟩
    | .fail status retryAfter =>
      if isRetryableStatus status = false ∨ left = 0 then
        if status = some 429 then
          let mock := mockRateLimitedResult demo lat lon
          ⟨.returned mock,
           ⟨cacheSet s.cache key ⟨mock, now + cacheTtlMs⟩, now + 60000⟩,
           1, []⟩
        else ⟨.thrown status, s, 1, []⟩
      else
        match left with
        | 0 => ⟨.thrown none, s, 1, []⟩
        | l + 1 =>
          let r := retryLoopGo attempts jitter demo lat lon key now cacheTtlMs
            s (attempt + 1) l
          ⟨r.outcome, r.state, r.attemptsMade + 1,
           backoffDelayMs retryAfter attempt (jitter attempt) :: r.delays⟩

/-- What a getRealtime call delivers to its caller: a returned observation
or a thrown error with its optional HTTP status (none also covers the
circuit-open rejection, whose error carries no status). -/
inductive CallResult
  | returned (d : RealtimeWeatherData)
  | errored (status : Option Int)
  deriving Repr, DecidableEq

/-- Full observable outcome of one sequential getRealtime call. -/
structure GatewayResult where
  res : CallResult
  s : ProviderState
  breaker : CircuitBreakerState
  attemptsMade : Nat
  deriving Repr, DecidableEq

/-- TomorrowWeatherProvider.getRealtime for one sequential call (the Redis
layer is absent when REDIS_URL is unset, and the in-flight map is empty for
a single call; coalescing is modelled separately): serve a fresh cache hit;
during an active cooldown cache and serve the cooldown demo observation;
otherwise run the retry loop through CircuitBreaker.execute, which rejects
while OPEN before the recovery timeout and otherwise records the outcome. -/
def getRealtime (cfg : CircuitBreakerConfig) (breaker : CircuitBreakerState)
    (s : ProviderState) (lat lon : ℚ) (units : String) (now : Int)
    (cacheTtlMs : Int) (attempts : Nat → AttemptResult) (jitter : Nat → ℚ)
    (demo : DemoValues) : GatewayResult :=
  let key := cacheKey lat lon units
  match cacheFresh s.cache key now with
  | some value => ⟨.returned value, s, breaker, 0⟩
  | none =>
    if now < s.rateLimitResetTime then
      let mock := mockCooldownResult demo lat lon
      ⟨.returned mock,
       ⟨cacheSet s.cache key ⟨mock, now + cacheTtlMs⟩, s.rateLimitResetTime⟩,
       breaker, 0⟩
    else
      if breaker.state = CircuitState.OPEN ∧
          shouldAttemptReset cfg breaker now = false then
        ⟨.errored none, s, breaker, 0⟩
      else
        let b1 := if breaker.state = CircuitState.OPEN then
          { breaker with state := CircuitState.HALF_OPEN } else breaker
        let r := retryLoopGo attempts jitter demo lat lon key now cacheTtlMs
          s 1 3
        match r.outcome with
        | .returned d => ⟨.returned d, r.state, onSuccess b1 now, r.attemptsMade⟩
        | .thrown st => ⟨.errored st, r.state, onFailure cfg b1 now, r.attemptsMade⟩

end Tomorrow

namespace Tomorrow

/-- C4 counterexample: the claim includes timeouts among the retried
failures.  A timeout carries no HTTP status, so isRetryable is false and
the very first attempt propagates the error with no retry and no backoff:
the loop reports one attempt and an empty delay list. -/
theorem c4_counterexample :
    retryLoopGo (fun _ => .fail none none) (fun _ => 0) ⟨22, 4, 1⟩ 10 10
      (cacheKey 10 10 "metric") 0 300000 ⟨[], 0⟩ 1 3 =
      ⟨.thrown none, ⟨[], 0⟩, 1, []⟩ := by
  rfl

/-- C4 amended: a failed attempt is retried with a backoff delay if and
only if its HTTP status is 429 or a 5xx; a failure with any other status,
or with no status at all (timeouts, network errors), propagates to the
caller immediately after a single attempt with no backoff, whatever number
of attempts remained. -/
theorem c4_amended_retry_policy (attempts : Nat → AttemptResult)
    (jitter : Nat → ℚ) (demo : DemoValues) (lat lon : ℚ) (key : CacheKey)
    (now cacheTtlMs : Int) (s : ProviderState) (attempt l : Nat)
    (status : Option Int) (ra : Option ℚ)
    (hatt : attempts attempt = .fail status ra) :
    ((status = some 429 ∨ ∃ n, status = some n ∧ 500 ≤ n ∧ n < 600) →
      retryLoopGo attempts jitter demo lat lon key now cacheTtlMs s attempt
        (l + 1) =
        ⟨(retryLoopGo attempts jitter demo lat lon key now cacheTtlMs s
            (attempt + 1) l).outcome,
         (retryLoopGo attempts jitter demo lat lon key now cacheTtlMs s
            (attempt + 1) l).state,
         (retryLoopGo attempts jitter demo lat lon key now cacheTtlMs s
            (attempt + 1) l).attemptsMade + 1,
         backoffDelayMs ra attempt (jitter attempt) ::
           (retryLoopGo attempts jitter demo lat lon key now cacheTtlMs s
             (attempt + 1) l).delays⟩) ∧
    ((status ≠ some 429 ∧ ¬ ∃ n, status = some n ∧ 500 ≤ n ∧ n < 600) →
      ∀ left, retryLoopGo attempts jitter demo lat lon key now cacheTtlMs s
        attempt left = ⟨.thrown status, s, 1, []⟩) := by
  constructor
  · intro hretry
    have hr : isRetryableStatus status = true := by
      rcases hretry with h | ⟨n, hn, h5, h6⟩
      · subst h; rfl
      · subst hn
        simp [isRetryableStatus]
        omega
    conv_lhs => rw [retryLoopGo]
    simp [hatt, hr]
  · intro hnope left
    obtain ⟨hne, hnot⟩ := hnope
    have hr : isRetryableStatus status = false := by
      cases status with
      | none => rfl
      | some n =>
        have hne2 : ¬ n = 429 := by
          intro h; exact hne (by rw [h])
        have hnot2 : ¬ (500 ≤ n ∧ n < 600) := by
          intro hh; exact hnot ⟨n, rfl, hh.1, hh.2⟩
        simp [isRetryableStatus]
        omega
    conv_lhs => rw [retryLoopGo]
    simp [hatt, hr, hne]

/-- C4 witness: the amended statement applied at concrete inputs: a 503 on
the first attempt is retried with its backoff delay recorded, while a 404
propagates immediately with one attempt and no delays. -/
theorem c4_witness :
    retryLoopGo (fun _ => .fail (some 503) none) (fun _ => 7) ⟨22, 4, 1⟩
      10 10 (cacheKey 10 10 "metric") 0 300000 ⟨[], 0⟩ 1 1 =
      ⟨(retryLoopGo (fun _ => .fail (some 503) none) (fun _ => 7) ⟨22, 4, 1⟩
          10 10 (cacheKey 10 10 "metric") 0 300000 ⟨[], 0⟩ 2 0).outcome,
       (retryLoopGo (fun _ => .fail (some 503) none) (fun _ => 7) ⟨22, 4, 1⟩
          10 10 (cacheKey 10 10 "metric") 0 300000 ⟨[], 0⟩ 2 0).state,
       (retryLoopGo (fun _ => .fail (some 503) none) (fun _ => 7) ⟨22, 4, 1⟩
          10 10 (cacheKey 10 10 "metric") 0 300000 ⟨[], 0⟩ 2 0).attemptsMade + 1,
       backoffDelayMs none 1 7 ::
         (retryLoopGo (fun _ => .fail (some 503) none) (fun _ => 7) ⟨22, 4, 1⟩
           10 10 (cacheKey 10 10 "metric") 0 300000 ⟨[], 0⟩ 2 0).delays⟩ ∧
    retryLoopGo (fun _ => .fail (some 404) none) (fun _ => 7) ⟨22, 4, 1⟩
      10 10 (cacheKey 10 10 "metric") 0 300000 ⟨[], 0⟩ 1 3 =
      ⟨.thrown (some 404), ⟨[], 0⟩, 1, []⟩ :=
  ⟨(c4_amended_retry_policy (fun _ => .fail (some 503) none) (fun _ => 7)
      ⟨22, 4, 1⟩ 10 10 (cacheKey 10 10 "metric") 0 300000 ⟨[], 0⟩ 1 0
      (some 503) none rfl).1
      (Or.inr ⟨503, rfl, by norm_num, by norm_num⟩),
   (c4_amended_retry_policy (fun _ => .fail (some 404) none) (fun _ => 7)
      ⟨22, 4, 1⟩ 10 10 (cacheKey 10 10 "metric") 0 300000 ⟨[], 0⟩ 1 0
      (some 404) none rfl).2
      ⟨by simp, by rintro ⟨n, hn, h5, h6⟩; injection hn with h; omega⟩ 3⟩

end Tomorrow

namespace Tomorrow

/-- C3 counterexample: the claim states that every call made while a
rate-limit condition holds returns a synthetic observation marked degraded.
With an active cooldown (now = 500 < rateLimitResetTime = 50000) but a
fresh cache entry holding an authentic upstream observation, the call
returns that authentic cached observation: it is not synthetic (isDemo is
false), and the RealtimeWeatherData type carries no degraded field at all,
its only synthetic marking being the raw demo message. -/
theorem c3_counterexample :
    (getRealtime ⟨3, 30000, 60000, 2⟩ ⟨.CLOSED, 0, 0, 0, 0⟩
      ⟨[(cacheKey 10 10 "metric",
         ⟨⟨some 25, some 3, some 0,
           .upstream ⟨some 25, some 3, some 0, some 0, some 0, some 0⟩⟩,
          1000⟩)], 50000⟩
      10 10 "metric" 500 300000 (fun _ => .fail (some 429) none) (fun _ => 0)
      ⟨22, 4, 1⟩).res =
      .returned ⟨some 25, some 3, some 0,
        .upstream ⟨some 25, some 3, some 0, some 0, some 0, some 0⟩⟩ ∧
    (⟨some 25, some 3, some 0,
      .upstream ⟨some 25, some 3, some 0, some 0, some 0, some 0⟩⟩ :
        RealtimeWeatherData).isDemo = false ∧
    (500 : Int) < 50000 := by
  refine ⟨?_, rfl, by norm_num⟩
  simp [getRealtime, cacheFresh, cacheGet]

/-- C3 amended: a call during an active cooldown that misses the cache, and
a call whose four attempts all fail with 429, both return a synthetic demo
observation and cache it under the request key with the standard TTL, and
neither throws; the 429 exhaustion also starts the 60 second cooldown.  The
synthetic observation is recognizable only by its raw demo payload: the
RealtimeWeatherData type has no degraded field to set. -/
theorem c3_amended_degraded_fallback :
    (∀ (cfg : CircuitBreakerConfig) (breaker : CircuitBreakerState)
       (s : ProviderState) (lat lon : ℚ) (units : String)
       (now ttl : Int) (attempts : Nat → AttemptResult) (jitter : Nat → ℚ)
       (demo : DemoValues),
      cacheFresh s.cache (cacheKey lat lon units) now = none →
      now < s.rateLimitResetTime →
      getRealtime cfg breaker s lat lon units now ttl attempts jitter demo =
        ⟨.returned (mockCooldownResult demo lat lon),
         ⟨cacheSet s.cache (cacheKey lat lon units)
            ⟨mockCooldownResult demo lat lon, now + ttl⟩,
          s.rateLimitResetTime⟩, breaker, 0⟩ ∧
      (mockCooldownResult demo lat lon).isDemo = true) ∧
    (∀ (cfg : CircuitBreakerConfig) (breaker : CircuitBreakerState)
       (s : ProviderState) (lat lon : ℚ) (units : String)
       (now ttl : Int) (attempts : Nat → AttemptResult) (jitter : Nat → ℚ)
       (demo : DemoValues) (ra : Nat → Option ℚ),
      cacheFresh s.cache (cacheKey lat lon units) now = none →
      ¬ now < s.rateLimitResetTime →
      breaker.state = CircuitState.CLOSED →
      (∀ i, attempts i = .fail (some 429) (ra i)) →
      getRealtime cfg breaker s lat lon units now ttl attempts jitter demo =
        ⟨.returned (mockRateLimitedResult demo lat lon),
         ⟨cacheSet s.cache (cacheKey lat lon units)
            ⟨mockRateLimitedResult demo lat lon, now + ttl⟩,
          now + 60000⟩, onSuccess breaker now, 4⟩ ∧
      (mockRateLimitedResult demo lat lon).isDemo = true) := by
  constructor
  · intro cfg breaker s lat lon units now ttl attempts jitter demo hmiss hcool
    refine ⟨?_, rfl⟩
    simp [getRealtime, hmiss, hcool]
  · intro cfg breaker s lat lon units now ttl attempts jitter demo ra hmiss
      hcool hclosed hatt
    refine ⟨?_, rfl⟩
    have hloop : retryLoopGo attempts jitter demo lat lon
        (cacheKey lat lon units) now ttl s 1 3 =
        ⟨.returned (mockRateLimitedResult demo lat lon),
         ⟨cacheSet s.cache (cacheKey lat lon units)
            ⟨mockRateLimitedResult demo lat lon, now + ttl⟩, now + 60000⟩,
         4, [backoffDelayMs (ra 1) 1 (jitter 1),
             backoffDelayMs (ra 2) 2 (jitter 2),
             backoffDelayMs (ra 3) 3 (jitter 3)]⟩ := by
      rw [retryLoopGo]
      simp only [hatt, isRetryableStatus]
      rw [retryLoopGo]
      simp only [hatt, isRetryableStatus]
      rw [retryLoopGo]
      simp only [hatt, isRetryableStatus]
      rw [retryLoopGo]
      simp [hatt, isRetryableStatus]
    simp [getRealtime, hmiss, hcool, hclosed, hloop]
end Tomorrow

namespace Tomorrow

/-- C3 witness: the amended statement applied at concrete inputs, for the
cooldown branch (empty cache, cooldown until 50000, call at 500) and the
429-exhaustion branch (no cooldown, four 429 attempts). -/
theorem c3_witness :
    (getRealtime ⟨3, 30000, 60000, 2⟩ ⟨.CLOSED, 0, 0, 0, 0⟩ ⟨[], 50000⟩
        10 10 "metric" 500 300000 (fun _ => .fail (some 429) none)
        (fun _ => 0) ⟨22, 4, 1⟩ =
      ⟨.returned (mockCooldownResult ⟨22, 4, 1⟩ 10 10),
       ⟨cacheSet [] (cacheKey 10 10 "metric")
          ⟨mockCooldownResult ⟨22, 4, 1⟩ 10 10, 500 + 300000⟩, 50000⟩,
       ⟨.CLOSED, 0, 0, 0, 0⟩, 0⟩ ∧
      (mockCooldownResult ⟨22, 4, 1⟩ 10 10).isDemo = true) ∧
    (getRealtime ⟨3, 30000, 60000, 2⟩ ⟨.CLOSED, 0, 0, 0, 0⟩ ⟨[], 0⟩
        10 10 "metric" 500 300000 (fun _ => .fail (some 429) none)
        (fun _ => 0) ⟨22, 4, 1⟩ =
      ⟨.returned (mockRateLimitedResult ⟨22, 4, 1⟩ 10 10),
       ⟨cacheSet [] (cacheKey 10 10 "metric")
          ⟨mockRateLimitedResult ⟨22, 4, 1⟩ 10 10, 500 + 300000⟩,
        500 + 60000⟩, onSuccess ⟨.CLOSED, 0, 0, 0, 0⟩ 500, 4⟩ ∧
      (mockRateLimitedResult ⟨22, 4, 1⟩ 10 10).isDemo = true) :=
  ⟨c3_amended_degraded_fallback.1 ⟨3, 30000, 60000, 2⟩ ⟨.CLOSED, 0, 0, 0, 0⟩
      ⟨[], 50000⟩ 10 10 "metric" 500 300000
      (fun _ => .fail (some 429) none) (fun _ => 0) ⟨22, 4, 1⟩ rfl
      (by norm_num),
   c3_amended_degraded_fallback.2 ⟨3, 30000, 60000, 2⟩ ⟨.CLOSED, 0, 0, 0, 0⟩
      ⟨[], 0⟩ 10 10 "metric" 500 300000 (fun _ => .fail (some 429) none)
      (fun _ => 0) ⟨22, 4, 1⟩ (fun _ => none) rfl (by norm_num) rfl
      (fun _ => rfl)⟩

end Tomorrow

namespace Tomorrow

/-! ### Request coalescing (the in-flight map of getRealtime)

The provider runs on the single-threaded JavaScript event loop.  For one
cache key, the whole synchronous segment of getRealtime from the in-memory
cache check through the cooldown check up to inFlight.set runs without
interleaving (there is no await between them), so a caller arrival is one
atomic step; the settlement of the upstream promise (whose finally handler
deletes the in-flight entry, and which populated the cache on success) is
the other. -/

/-- Per-key state seen by the coalescing logic: the cache expiry for the
key if an entry exists, whether a producer call for the key is in flight,
the cooldown deadline, and the number of outstanding upstream HTTP calls
for the key (the quantity the claim bounds). -/
structure KeyFlightState where
  cacheExpiresAt : Option Int
  inFlight : Bool
  coolingUntil : Int
  outstanding : Nat
  deriving Repr, DecidableEq

/-- Events of one key: a caller arrives at time t, or the in-flight
upstream call settles at time t with success or failure. -/
inductive FlightEvent
  | arrive (t : Int)
  | complete (t : Int) (ok : Bool)
  deriving Repr, DecidableEq

/-- One event-loop step of the provider for one key.  The Bool reports
whether the step issued a new upstream HTTP call.  An arrival that finds a
fresh cache entry returns it; one that finds a call in flight awaits that
same promise; one inside the cooldown caches and returns demo data; only
the remaining case starts an upstream call and registers it in flight.  A
completion clears the in-flight marker and, on success, leaves the cache
populated until t + ttl. -/
def flightStep (ttl : Int) (s : KeyFlightState) :
    FlightEvent → KeyFlightState × Bool
  | .arrive t =>
    if (match s.cacheExpiresAt with
        | some e => decide (t < e)
        | none => false) then (s, false)
    else if s.inFlight then (s, false)
    else if t < s.coolingUntil then
      ({ s with cacheExpiresAt := some (t + ttl) }, false)
    else
      ({ s with inFlight := true, outstanding := s.outstanding + 1 }, true)
  | .complete t ok =>
    if s.inFlight then
      ({ s with
          inFlight := false
          outstanding := s.outstanding - 1
          cacheExpiresAt := if ok then some (t + ttl) else s.cacheExpiresAt },
       false)
    else (s, false)

/-- Folding a list of events through flightStep. -/
def flightRun (ttl : Int) : KeyFlightState → List FlightEvent → KeyFlightState
  | s, [] => s
  | s, e :: es => flightRun ttl (flightStep ttl s e).1 es

/-- The single-flight invariant: the number of outstanding upstream calls
for the key equals one exactly while a call is registered in flight, and
zero otherwise. -/
def FlightInv (s : KeyFlightState) : Prop :=
  s.outstanding = (if s.inFlight then 1 else 0)

/-- Preservation of the single-flight invariant by one step. -/
theorem flightStep_inv (ttl : Int) (s : KeyFlightState) (e : FlightEvent)
    (h : FlightInv s) : FlightInv (flightStep ttl s e).1 := by
  cases e with
  | arrive t =>
    simp only [FlightInv, flightStep] at h ⊢
    split_ifs with h1 h2 h3 <;> simp_all
  | complete t ok =>
    simp only [FlightInv, flightStep] at h ⊢
    split_ifs with h1 <;> simp_all

end Tomorrow

namespace Tomorrow

/-- C9: starting from any state satisfying the single-flight invariant (in
particular the initial state with nothing in flight), every sequence of
caller arrivals and completions preserves it, so at most one upstream call
per key is ever outstanding; moreover an arrival that finds a fresh cache
entry changes nothing and issues no upstream call, and an arrival while a
call is in flight joins it, also issuing no upstream call. -/
theorem c9_single_flight :
    (∀ (ttl : Int) (s : KeyFlightState) (events : List FlightEvent),
      FlightInv s →
      FlightInv (flightRun ttl s events) ∧
        (flightRun ttl s events).outstanding ≤ 1) ∧
    (∀ (ttl : Int) (s : KeyFlightState) (t e : Int),
      s.cacheExpiresAt = some e → t < e →
      flightStep ttl s (.arrive t) = (s, false)) ∧
    (∀ (ttl : Int) (s : KeyFlightState) (t : Int),
      s.inFlight = true →
      (flightStep ttl s (.arrive t)).2 = false) := by
  refine ⟨?_, ?_, ?_⟩
  · intro ttl s events hInv
    have hrun : FlightInv (flightRun ttl s events) := by
      induction events generalizing s with
      | nil => exact hInv
      | cons e es ih => exact ih (flightStep ttl s e).1 (flightStep_inv ttl s e hInv)
    refine ⟨hrun, ?_⟩
    unfold FlightInv at hrun
    rw [hrun]
    split <;> norm_num
  · intro ttl s t e hcache hfresh
    simp [flightStep, hcache, hfresh]
  · intro ttl s t hin
    simp only [flightStep]
    split_ifs <;> simp_all

/-- C9 witness: the invariant applied to a concrete interleaving (two
arrivals coalesced into one flight, a completion, and a later arrival
served from the populated cache), plus the fresh-hit and join cases at
concrete states. -/
theorem c9_witness :
    (FlightInv (flightRun 300000 ⟨none, false, 0, 0⟩
        [.arrive 0, .arrive 1, .complete 2 true, .arrive 3]) ∧
      (flightRun 300000 ⟨none, false, 0, 0⟩
        [.arrive 0, .arrive 1, .complete 2 true, .arrive 3]).outstanding ≤ 1) ∧
    flightStep 300000 ⟨some 1000, false, 0, 0⟩ (.arrive 500) =
      (⟨some 1000, false, 0, 0⟩, false) ∧
    (flightStep 300000 ⟨none, true, 0, 1⟩ (.arrive 500)).2 = false :=
  ⟨c9_single_flight.1 300000 ⟨none, false, 0, 0⟩
      [.arrive 0, .arrive 1, .complete 2 true, .arrive 3] rfl,
   c9_single_flight.2.1 300000 ⟨some 1000, false, 0, 0⟩ 500 1000 rfl
      (by norm_num),
   c9_single_flight.2.2 300000 ⟨none, true, 0, 1⟩ 500 rfl⟩

end Tomorrow

namespace Tomorrow

/-! ### Event publication (event-driven-weather.provider.ts) -/

/-- The weather event EventDrivenWeatherProvider.getRealtime publishes for
an observation: a null temperatureC or windSpeedMps becomes the number 0,
while a null precipitationMmHr passes through as null. -/
def weatherEventOfRealtime (latitude longitude : ℚ) (d : RealtimeWeatherData)
    (source : String) : WeatherEventData :=
  { latitude := latitude
    longitude := longitude
    temperatureC := some (d.temperatureC.getD 0)
    windSpeedMps := some (d.windSpeedMps.getD 0)
    precipitationMmHr := d.precipitationMmHr
    source := source }

/-- The event EventDrivenWeatherProvider.getRealtimeBatch pushes for each
location: the same construction as the single-call path. -/
def weatherEventOfRealtimeBatch (latitude longitude : ℚ)
    (d : RealtimeWeatherData) (source : String) : WeatherEventData :=
  { latitude := latitude
    longitude := longitude
    temperatureC := some (d.temperatureC.getD 0)
    windSpeedMps := some (d.windSpeedMps.getD 0)
    precipitationMmHr := d.precipitationMmHr
    source := source }

end Tomorrow

namespace Tomorrow

/-- C10 counterexample: the claim infers that the substituted 0 can satisfy
a condition such as TEMPERATURE LT 5.  Running the event path on a
TEMPERATURE LT 5 alert and an event published from an observation with a
null temperature, the engine does receive 0 (the write records
currentValue = 0) but triggered is false: the event path hands the
condition evaluator alert.value, a field repository records do not have, so
the undefined threshold makes the LT comparison false. -/
theorem c10_counterexample :
    (evaluateAlertWithEvent
      ⟨"t1", none, none, none, some 10, some 10, "temperature", .LT, 5,
        none, none, none, none, none, none⟩
      (weatherEventOfRealtime 10 10
        ⟨none, none, some 0, .upstream ⟨none, none, none, none, none, none⟩⟩
        "api")).map (fun p => (p.1.currentValue, p.1.triggered)) =
      some (some 0, false) := by
  rfl

/-- C10 amended: in both the single-call and the batch publication a null
temperatureC or windSpeedMps of the underlying observation is replaced by
the number 0 in the published event, so downstream evaluation of a
temperature alert receives currentValue 0 rather than an absent reading;
the substituted 0 does satisfy TEMPERATURE LT 5 under the condition
evaluator when the stored threshold is supplied, but on the event path as
coded the threshold read from alert.value is undefined, so an LT alert
never triggers there. -/
theorem c10_amended_null_to_zero :
    (∀ (lat lon : ℚ) (d : RealtimeWeatherData) (src : String),
      (weatherEventOfRealtime lat lon d src).temperatureC =
          some (d.temperatureC.getD 0) ∧
        (weatherEventOfRealtime lat lon d src).windSpeedMps =
          some (d.windSpeedMps.getD 0) ∧
        weatherEventOfRealtimeBatch lat lon d src =
          weatherEventOfRealtime lat lon d src) ∧
    (∀ (a : AlertRecord) (lat lon : ℚ) (precip : Option ℚ) (raw : RawPayload)
       (src : String),
      a.parameter = "temperature" →
      (evaluateAlertWithEvent a
        (weatherEventOfRealtime lat lon ⟨none, none, precip, raw⟩ src)).map
          (fun p => p.1.currentValue) = some (some 0)) ∧
    evaluateAlertCondition "TEMPERATURE" .LT 5 ⟨some 0, none, none⟩ =
      (some 0, true) ∧
    (∀ (a : AlertRecord) (cv : ℚ), a.operator = .LT →
      eventTriggered a cv = false) := by
  refine ⟨?_, ?_, ?_, ?_⟩
  · intro lat lon d src
    exact ⟨rfl, rfl, rfl⟩
  · intro a lat lon precip raw src hpar
    have hx : extractWeatherValue
        (weatherEventOfRealtime lat lon ⟨none, none, precip, raw⟩ src)
        a.parameter = some 0 := by
      simp [extractWeatherValue, weatherEventOfRealtime, hpar]
    rw [evaluateAlertWithEvent_eq_some a _ 0 hx]
    rfl
  · norm_num [evaluateAlertCondition, valueMapLookup, applyOperator]
  · intro a cv hop
    unfold eventTriggered evaluateAlertConditionJs
    cases valueMapLookup (jsToUpperCase a.parameter)
        ⟨if a.parameter = "temperature" then some cv else none,
         if a.parameter = "windSpeed" then some cv else none,
         if a.parameter = "precipitation" then some cv else none⟩ with
    | none => rfl
    | some v => simp [jsCompare, hop]

/-- C10 witness: the amended statement applied at concrete inputs. -/
theorem c10_witness :
    ((weatherEventOfRealtime 10 10
        ⟨none, some 3, none, .upstream ⟨none, some 3, none, none, none, none⟩⟩
        "api").temperatureC = some ((none : Option ℚ).getD 0) ∧
      (weatherEventOfRealtime 10 10
        ⟨none, some 3, none, .upstream ⟨none, some 3, none, none, none, none⟩⟩
        "api").windSpeedMps = some ((some (3 : ℚ)).getD 0) ∧
      weatherEventOfRealtimeBatch 10 10
        ⟨none, some 3, none, .upstream ⟨none, some 3, none, none, none, none⟩⟩
        "api" =
        weatherEventOfRealtime 10 10
        ⟨none, some 3, none, .upstream ⟨none, some 3, none, none, none, none⟩⟩
        "api") ∧
    (evaluateAlertWithEvent
      ⟨"t1", none, none, none, some 10, some 10, "temperature", .LT, 5,
        none, none, none, none, none, none⟩
      (weatherEventOfRealtime 10 10
        ⟨none, none, none, .upstream ⟨none, none, none, none, none, none⟩⟩
        "api")).map (fun p => p.1.currentValue) = some (some 0) ∧
    eventTriggered
      ⟨"t1", none, none, none, some 10, some 10, "temperature", .LT, 5,
        none, none, none, none, none, none⟩ 0 = false :=
  ⟨c10_amended_null_to_zero.1 10 10
      ⟨none, some 3, none, .upstream ⟨none, some 3, none, none, none, none⟩⟩
      "api",
   c10_amended_null_to_zero.2.1
      ⟨"t1", none, none, none, some 10, some 10, "temperature", .LT, 5,
        none, none, none, none, none, none⟩ 10 10 none
      (.upstream ⟨none, none, none, none, none, none⟩) "api" rfl,
   c10_amended_null_to_zero.2.2.2
      ⟨"t1", none, none, none, some 10, some 10, "temperature", .LT, 5,
        none, none, none, none, none, none⟩ 0 rfl⟩

end Tomorrow
